import Mathlib

/-!
Verification development for the `better-grammy-menu` repository.

The TypeScript source is shallowly embedded: JS strings that carry token or
identifier data are modelled as `List Char` (`JStr`), JS `Map`s and plain
objects as association lists with JS insertion-order update semantics, and
the external bot capabilities (reply, edit, answer callback query, loader,
callback handlers, timers) as oracle parameters whose outcomes are supplied
to each operation, together with an effect trace recording the calls the
code makes.  Fallible paths return `Except String` (a JS error is modelled
by its `message` string).
-/

namespace BGMenu

/-- JS strings carrying token data are modelled as lists of characters. -/
abbrev JStr := List Char

/-- Mirror of the JS `String.prototype.split` with a single-character
separator: `splitCh c l` cuts `l` at every occurrence of `c`; it always
returns at least one (possibly empty) part. -/
def splitCh (c : Char) : List Char → List (List Char)
  | [] => [[]]
  | x :: xs =>
    if x = c then [] :: splitCh c xs
    else
      match splitCh c xs with
      | [] => [[x]]
      | y :: ys => (x :: y) :: ys

/-- Embedding of the constant `MENU_PREFIX = "eijdfwof"`. -/
def MENU_PREFIX : JStr := ['e', 'i', 'j', 'd', 'f', 'w', 'o', 'f']

/-- Embedding of the `Action` union type (single member `"callback"`). -/
inductive Action where
  | callback
deriving DecidableEq, Repr

/-- Embedding of `ACTION_REPRESENTATION_MAPPING` (maps `callback` to `"call"`). -/
def actionRepr : Action → JStr
  | .callback => ['c', 'a', 'l', 'l']

/-- Reverse direction of `ACTION_REPRESENTATION_MAPPING`: the membership test
`Object.values(...).includes(action)` combined with the
`Object.entries(...).find(...)` lookup in `parseAction`. -/
def actionOfRepr (r : JStr) : Option Action :=
  if r = actionRepr .callback then some .callback else none

/-- Embedding of `buildAction`: the template literal
`PREFIX:sourceId:repr` followed by `:targetId` only when `targetId` is
truthy (a missing or empty instance id contributes nothing). -/
def buildAction (a : Action) (sourceId : JStr) (targetId : Option JStr) : JStr :=
  MENU_PREFIX ++ ':' :: (sourceId ++ ':' :: (actionRepr a ++
    match targetId with
    | some t => if t.isEmpty then [] else ':' :: t
    | none => []))

/-- Result shape of `parseAction`. -/
structure ParsedAction where
  action : Action
  sourceId : JStr
  targetId : Option JStr
deriving DecidableEq, Repr

/-- Embedding of `parseAction`: destructure the first four fields of
`actionString.split(":")`, then reject on namespace-marker mismatch,
unrecognized action code, or falsy source id, in that order. -/
def parseAction (s : JStr) : Option ParsedAction :=
  let parts := splitCh ':' s
  if parts.get? 0 ≠ some MENU_PREFIX then none
  else
    match actionOfRepr ((parts.get? 2).getD []) with
    | none => none
    | some kind =>
      if ((parts.get? 1).getD []).isEmpty then none
      else some ⟨kind, (parts.get? 1).getD [], parts.get? 3⟩

theorem splitCh_ne_nil (c : Char) (l : List Char) : splitCh c l ≠ [] := by
  induction l with
  | nil => simp [splitCh]
  | cons x xs ih =>
    by_cases hx : x = c
    · simp [splitCh, hx]
    · cases h : splitCh c xs with
      | nil => exact absurd h ih
      | cons y ys => simp [splitCh, hx, h]

theorem splitCh_no_sep (c : Char) (l : List Char) (h : c ∉ l) :
    splitCh c l = [l] := by
  induction l with
  | nil => rfl
  | cons x xs ih =>
    have hx : ¬ x = c := fun e => h (e ▸ List.mem_cons_self x xs)
    have hxs : c ∉ xs := fun m => h (List.mem_cons_of_mem _ m)
    simp [splitCh, hx, ih hxs]

theorem splitCh_append_sep (c : Char) (l r : List Char) (h : c ∉ l) :
    splitCh c (l ++ c :: r) = l :: splitCh c r := by
  induction l with
  | nil => simp [splitCh]
  | cons x xs ih =>
    have hx : ¬ x = c := fun e => h (e ▸ List.mem_cons_self x xs)
    have hxs : c ∉ xs := fun m => h (List.mem_cons_of_mem _ m)
    simp [splitCh, hx, ih hxs]

/-- Embedding of the `InlineKeyboardButton` payloads this library mints:
`InlineKeyboard.text` (a callback button whose wire value is an action
token), `InlineKeyboard.copyText`, and `InlineKeyboard.url`. -/
inductive Button where
  | text (label : String) (callbackData : JStr)
  | copyText (label content : String)
  | url (label u : String)
deriving DecidableEq, Repr

/-- Embedding of the `ActionHandler` record `{ action, callbackFn? }`; the
callback function itself is kept abstract at type `κ`. -/
structure Handler (κ : Type) where
  action : JStr
  callbackFn : Option κ
deriving DecidableEq, Repr

/-- Embedding of `BuildStep`: a `static` step carries a list whose members
are either a single button or a whole row (JS `InlineKeyboardButton[] |
InlineKeyboardButton[][]`, discriminated by `Array.isArray`) together with
an optional handler; a `dynamic` step is modelled by the list of steps its
generator function pushes onto the fresh nested builder for the render
being compiled (the generator runs afresh on every render, so its effect at
one render is exactly such a list). -/
inductive BStep (β η : Type) where
  | static (buttons : List (β ⊕ List β)) (handler : Option η)
  | dyn (nested : List (BStep β η))
deriving Repr

/-- Mirror of `keyboard[keyboard.length - 1]!.push(...)`: append entries to
the final row.  During `build` the keyboard starts as `[[]]` and never
shrinks, so the list is always non-empty there; the `[]` case is supplied
only for totality. -/
def appendToLast {β : Type} : List (List β) → List β → List (List β)
  | [], bs => [bs]
  | [r], bs => [r ++ bs]
  | r :: rest, bs => r :: appendToLast rest bs

/-- Mirror of the static-step button loop in `LayoutBuilder.build`: an array
entry (`Array.isArray`) is pushed as a new row, a single button is appended
to the current (last) row. -/
def addButtons {β : Type} (kb : List (List β)) (buttons : List (β ⊕ List β)) :
    List (List β) :=
  buttons.foldl
    (fun k b =>
      match b with
      | Sum.inl btn => appendToLast k [btn]
      | Sum.inr row => k ++ [row])
    kb

/-- Mirror of the splice of a nested (already filtered) dynamic build into
the outer keyboard: if the nested keyboard is non-empty, its first row is
pushed onto the current row and the remaining rows are appended as new
rows. -/
def splice {β : Type} (kb nkb : List (List β)) : List (List β) :=
  match nkb with
  | [] => kb
  | r :: rs =>
    let kb2 := appendToLast kb r
    if rs.isEmpty then kb2 else kb2 ++ rs

/-- Core loop of `LayoutBuilder.build`, threading the keyboard accumulator
(initially `[[]]`) and returning the keyboard together with the
`staticHandlers` and `dynamicHandlers` lists in push order.  A dynamic step
compiles its nested steps from a fresh `[[]]` keyboard, filters out empty
rows (the nested `build` call returns filtered output), merges the nested
static and dynamic handlers into the outer dynamic list, and splices the
nested keyboard. -/
def buildList {β η : Type} : List (BStep β η) → List (List β) →
    List (List β) × List η × List η
  | [], kb => (kb, [], [])
  | .static buttons handler :: rest, kb =>
    let r := buildList rest (addButtons kb buttons)
    (r.1, handler.toList ++ r.2.1, r.2.2)
  | .dyn nested :: rest, kb =>
    let n := buildList nested [[]]
    let nkb := n.1.filter (fun row => ¬ row.isEmpty)
    let r := buildList rest (splice kb nkb)
    (r.1, r.2.1, (n.2.1 ++ n.2.2) ++ r.2.2)
termination_by steps _ => sizeOf steps
decreasing_by
  all_goals simp <;> omega

/-- Result record of `LayoutBuilder.build`. -/
structure BuildResult (β η : Type) where
  keyboard : List (List β)
  staticHandlers : List η
  dynamicHandlers : List η
deriving Repr

/-- Embedding of `LayoutBuilder.build`: run the step loop from the initial
`[[]]` keyboard and drop empty rows from the final grid. -/
def build {β η : Type} (steps : List (BStep β η)) : BuildResult β η :=
  let r := buildList steps [[]]
  ⟨r.1.filter (fun row => ¬ row.isEmpty), r.2.1, r.2.2⟩

/-- Embedding of `LayoutBuilder.prepare`: the handlers of the static steps,
in declaration order. -/
def prepare {β η : Type} (steps : List (BStep β η)) : List η :=
  steps.filterMap
    (fun s =>
      match s with
      | .static _ h => h
      | .dyn _ => none)

/-- Action token minted by `LayoutBuilder.callback` for a menu id and a
fresh `nanoid(6)` instance id. -/
def cbAction (menuId targetId : JStr) : JStr :=
  buildAction .callback menuId (some targetId)

/-- Embedding of the step pushed by `LayoutBuilder.callback`. -/
def cbStep {κ : Type} (menuId targetId : JStr) (label : String) (fn : Option κ) :
    BStep Button (Handler κ) :=
  .static [Sum.inl (.text label (cbAction menuId targetId))]
    (some ⟨cbAction menuId targetId, fn⟩)

/-- Embedding of the step pushed by `LayoutBuilder.row`: one empty row
(`buttons: [[]]`). -/
def rowStep {κ : Type} : BStep Button (Handler κ) :=
  .static [Sum.inr []] none

/-- Embedding of the step pushed by `LayoutBuilder.copy`. -/
def copyStep {κ : Type} (label content : String) : BStep Button (Handler κ) :=
  .static [Sum.inl (.copyText label content)] none

/-- Embedding of the step pushed by `LayoutBuilder.url`. -/
def urlStep {κ : Type} (label u : String) : BStep Button (Handler κ) :=
  .static [Sum.inl (.url label u)] none

/-- Model of the JS values that flow through loader arguments and loader
data: `undefined`, `null`, primitives, and plain objects with ordered
string-keyed fields. -/
inductive JSVal where
  | undef
  | null
  | bool (b : Bool)
  | str (s : String)
  | num (n : Int)
  | obj (fields : List (String × JSVal))

/-- Mirror of the JS nullish-coalescing operator `a ?? b`. -/
def jsNullish (a b : JSVal) : JSVal :=
  match a with
  | .undef => b
  | .null => b
  | v => v

/-- Enumerable own fields contributed by spreading a value into an object
literal: an object spreads its fields, anything else contributes none. -/
def jsSpread (v : JSVal) : List (String × JSVal) :=
  match v with
  | .obj fs => fs
  | _ => []

/-- Association-list map with the update semantics shared by JS `Map.set`
and object-field assignment: an existing key keeps its position and gets
the new value, a new key is appended. -/
def setA {K α : Type} [DecidableEq K] : List (K × α) → K → α → List (K × α)
  | [], k, v => [(k, v)]
  | (k', v') :: rest, k, v =>
    if k' = k then (k, v) :: rest else (k', v') :: setA rest k v

/-- Association-list lookup mirroring JS `Map.get` / object-field access
(first, i.e. unique, occurrence wins). -/
def lookupA {K α : Type} [DecidableEq K] : List (K × α) → K → Option α
  | [], _ => none
  | (k', v) :: rest, k => if k' = k then some v else lookupA rest k

/-- Mirror of the object spread `{...a, ...b}`: the fields of `b` are
assigned over those of `a` in order. -/
def mergeFields (a b : List (String × JSVal)) : List (String × JSVal) :=
  b.foldl (fun acc p => setA acc p.1 p.2) a

/-- Embedding of the argument computation inside the `refresh` action
exposed to callback handlers: when the persisted previous loader arguments
are a non-null object the result is `{...sessionArgs, ...(args ?? {})}`,
otherwise it is `args ?? sessionArgs`. -/
def refreshArgs (sessionArgs override : JSVal) : JSVal :=
  match sessionArgs with
  | .obj fs => .obj (mergeFields fs (jsSpread (jsNullish override (.obj []))))
  | sa => jsNullish override sa

/-- Mirror of the `forEach`/`set` loops that turn a handler list into a
`Map` keyed by action token (later handlers overwrite earlier ones). -/
def handlersToMap {κ : Type} (hs : List (Handler κ)) :
    List (JStr × Handler κ) :=
  hs.foldl (fun m h => setA m h.action h) []

/-- Embedding of the per-chat fields of `ctx.session._menu` that the claims
touch: the single active-message pointer and the persisted loader
arguments/data of the last render. -/
structure Sess where
  activeMessageId : Option Nat
  activeMenuLoaderArgs : JSVal
  activeMenuLoaderData : JSVal

/-- Embedding of `MenuOptions` (all fields optional). -/
structure MenuOptions where
  staleErrorText : Option String
  timeoutErrorText : Option String
  timeoutMs : Option Nat

/-- Immutable configuration of a `Menu` instance: its id and options. -/
structure MenuCfg where
  id : JStr
  options : Option MenuOptions

/-- Default `staleErrorText` from `Menu.defaultOptions`. -/
def defaultStaleErrorText : String := "The menu is stalled"

/-- Mirror of `this.options?.staleErrorText ?? this.defaultOptions.staleErrorText`. -/
def resolvedStaleText (cfg : MenuCfg) : String :=
  ((cfg.options.map MenuOptions.staleErrorText).getD none).getD defaultStaleErrorText

/-- Mutable handler registries of a `Menu` instance: the static handler map
built once in the constructor and the per-chat dynamic handler map rebuilt
by `buildLayout` (keyed by `ctx.chat?.id.toString() ?? ""`). -/
structure MenuSt (κ : Type) where
  staticMap : List (JStr × Handler κ)
  dyn : List (JStr × List (JStr × Handler κ))

/-- Embedding of the `Menu` constructor's registry setup: the static map is
populated from `builder.prepare()` and the per-chat dynamic map starts
empty. -/
def mkMenuState {κ : Type} (steps : List (BStep Button (Handler κ))) : MenuSt κ :=
  ⟨handlersToMap (prepare steps), []⟩

/-- Observable calls the embedded operations make on the host framework and
the developer-supplied functions, in order. -/
inductive Eff where
  | next
  | answer (text : Option String) (showAlert : Bool)
  | invokeHandler (action : JStr)
  | invokeLoader (args : JSVal)
  | reply (text : String)
  | editMessage (text : String)

/-- Payload produced by `buildLayout` for the host send/edit capability. -/
structure Payload where
  text : String
  keyboard : List (List Button)
  parseMode : Option String

/-- Outcome of racing `onEnter` plus the loader against the timeout timer:
either the loaded `{text, data, parseMode}` or a thrown error's message
(a loader rejection, an `onEnter` rejection, or the timer's configured
timeout text). -/
abbrev LoaderOutcome := Except String (String × JSVal × Option String)

/-- Handler-map resolution at the top of `Menu.middleware`: the static map
first, then the dynamic map of the chat key `ctx.chat?.id.toString() ?? ""`. -/
def resolveHandler {κ : Type} (staticMap : List (JStr × Handler κ))
    (dyn : List (JStr × List (JStr × Handler κ))) (chat : Option JStr)
    (cbq : JStr) : Option (Handler κ) :=
  match lookupA staticMap cbq with
  | some h => some h
  | none => (lookupA dyn (chat.getD [])).bind (fun m => lookupA m cbq)

/-- Embedding of `Menu.middleware`.  Oracle inputs: `cbData` and `cbMsgId`
are `ctx.callbackQuery?.data` and `ctx.callbackQuery?.message?.message_id`;
`handlerOutcome` is the outcome of racing the matched callback against the
timeout timer (only consulted when a callback is actually invoked).  The
`answerCallbackQuery` calls carry `.catch(() => null)` in the source, so
their own failures never influence control flow and are not modelled.
Returns the middleware's outcome (`error` = the exception it re-throws)
and the trace of calls it made. -/
def middleware {κ : Type} (cfg : MenuCfg) (st : MenuSt κ) (sess : Sess)
    (chat : Option JStr) (cbData : Option JStr) (cbMsgId : Option Nat)
    (handlerOutcome : Except String Unit) :
    Except String Unit × List Eff :=
  let cbq := cbData.getD []
  let handler? := resolveHandler st.staticMap st.dyn chat cbq
  let parsed? := parseAction ((handler?.map Handler.action).getD [])
  match handler?, parsed? with
  | some handler, some parsed =>
    if parsed.sourceId ≠ cfg.id then (.ok (), [.next])
    else if cbMsgId ≠ sess.activeMessageId then
      (.ok (), [.answer (some (resolvedStaleText cfg)) true])
    else
      match handler.callbackFn, handlerOutcome with
      | some _, .ok _ => (.ok (), [.invokeHandler handler.action, .answer none false])
      | some _, .error e =>
        (.error e, [.invokeHandler handler.action, .answer (some e) true])
      | none, _ => (.ok (), [.answer none false])
  | _, _ => (.ok (), [.next])

/-- Embedding of `Menu.buildLayout` for one render.  `loader` maps the
loader arguments to the raced outcome; `steps` is the builder's step list
with each dynamic generator's effect for this render inlined.  On success
the per-chat dynamic registry is replaced by this compile's dynamic
handlers, and the loader arguments and data are persisted in the
session. -/
def buildLayout {κ : Type} (st : MenuSt κ) (chat : Option JStr)
    (loader : JSVal → LoaderOutcome) (steps : List (BStep Button (Handler κ)))
    (args : JSVal) (sess : Sess) :
    Except String (Payload × Sess × MenuSt κ) × List Eff :=
  match loader args with
  | .error e => (.error e, [.invokeLoader args])
  | .ok (text, data, pm) =>
    let br := build steps
    let st2 : MenuSt κ :=
      { st with dyn := setA st.dyn (chat.getD []) (handlersToMap br.dynamicHandlers) }
    let sess2 : Sess :=
      { sess with activeMenuLoaderArgs := args, activeMenuLoaderData := data }
    (.ok (⟨text, br.keyboard, pm⟩, sess2, st2), [.invokeLoader args])

/-- Result of one `send` or `render` call: the outcome (`error` = the
exception it lets escape), the session and menu registries afterwards, and
the trace of calls made. -/
structure OpResult (κ : Type) where
  outcome : Except String Unit
  sess : Sess
  st : MenuSt κ
  trace : List Eff

/-- Embedding of `Menu.render` (the `navigate` edit path): build the
layout, then edit the existing message.  There is no `try`/`catch` here: a
`buildLayout` error or an `editMessageText` rejection (`editOut`) escapes
to the caller, and `activeMessageId` is never written. -/
def render {κ : Type} (st : MenuSt κ) (chat : Option JStr)
    (loader : JSVal → LoaderOutcome) (steps : List (BStep Button (Handler κ)))
    (args : JSVal) (sess : Sess) (editOut : Except String Unit) : OpResult κ :=
  match buildLayout st chat loader steps args sess with
  | (.error e, tr) => ⟨.error e, sess, st, tr⟩
  | (.ok (p, sess2, st2), tr) => ⟨editOut, sess2, st2, tr ++ [.editMessage p.text]⟩

/-- Embedding of `Menu.send`: build the layout and issue a new message
(`replyOut` supplies the host's `message_id` or a rejection); on success
record that id as `activeMessageId`.  The whole body is wrapped in
`try`/`catch`: on any error the error's message is sent as reply text
(`errReplyOut` is that fallback reply's own outcome, which escapes if it
too rejects). -/
def send {κ : Type} (st : MenuSt κ) (chat : Option JStr)
    (loader : JSVal → LoaderOutcome) (steps : List (BStep Button (Handler κ)))
    (args : JSVal) (sess : Sess) (replyOut : Except String Nat)
    (errReplyOut : Except String Unit) : OpResult κ :=
  match buildLayout st chat loader steps args sess with
  | (.error e, tr) => ⟨errReplyOut, sess, st, tr ++ [.reply e]⟩
  | (.ok (p, sess2, st2), tr) =>
    match replyOut with
    | .ok mid =>
      ⟨.ok (), { sess2 with activeMessageId := some mid }, st2, tr ++ [.reply p.text]⟩
    | .error e => ⟨errReplyOut, sess2, st2, tr ++ [.reply p.text, .reply e]⟩

/-- Embedding of the `refresh` action handed to callback handlers by
`getCallbackActions`: re-render the same menu through `render` with the
persisted `activeMenuLoaderArgs` merged with the partial override. -/
def refreshAction {κ : Type} (st : MenuSt κ) (chat : Option JStr)
    (loader : JSVal → LoaderOutcome) (steps : List (BStep Button (Handler κ)))
    (sess : Sess) (override : JSVal) (editOut : Except String Unit) : OpResult κ :=
  render st chat loader steps (refreshArgs sess.activeMenuLoaderArgs override)
    sess editOut

/-- One render-path operation together with its oracle inputs, for stating
invariants over arbitrary operation sequences. -/
inductive MenuOp (κ : Type) where
  | sendOp (chat : Option JStr) (loader : JSVal → LoaderOutcome)
      (steps : List (BStep Button (Handler κ))) (args : JSVal)
      (replyOut : Except String Nat) (errReplyOut : Except String Unit)
  | renderOp (chat : Option JStr) (loader : JSVal → LoaderOutcome)
      (steps : List (BStep Button (Handler κ))) (args : JSVal)
      (editOut : Except String Unit)

/-- Apply one operation to the session and menu registries. -/
def applyOp {κ : Type} (acc : Sess × MenuSt κ) (op : MenuOp κ) : Sess × MenuSt κ :=
  match op with
  | .sendOp chat loader steps args replyOut errReplyOut =>
    let r := send acc.2 chat loader steps args acc.1 replyOut errReplyOut
    (r.sess, r.st)
  | .renderOp chat loader steps args editOut =>
    let r := render acc.2 chat loader steps args acc.1 editOut
    (r.sess, r.st)

theorem parseAction_buildAction_some (src u : JStr) (h1 : src ≠ []) (h2 : ':' ∉ src)
    (hu1 : u ≠ []) (hu2 : ':' ∉ u) :
    parseAction (buildAction .callback src (some u)) = some ⟨.callback, src, some u⟩ := by
  have hsE : src.isEmpty = false := by
    cases src with
    | nil => exact absurd rfl h1
    | cons a l => rfl
  have huE : u.isEmpty = false := by
    cases u with
    | nil => exact absurd rfl hu1
    | cons a l => rfl
  have hb : buildAction .callback src (some u)
      = MENU_PREFIX ++ ':' :: (src ++ ':' :: (actionRepr .callback ++ ':' :: u)) := by
    simp [buildAction, huE]
  rw [hb]
  simp only [parseAction]
  rw [splitCh_append_sep _ _ _ (by decide : ':' ∉ MENU_PREFIX),
    splitCh_append_sep _ _ _ h2,
    splitCh_append_sep _ _ _ (by decide : ':' ∉ actionRepr Action.callback),
    splitCh_no_sep _ _ hu2]
  simp [actionOfRepr, hsE]

theorem parseAction_buildAction_none (src : JStr) (h1 : src ≠ []) (h2 : ':' ∉ src) :
    parseAction (buildAction .callback src none) = some ⟨.callback, src, none⟩ := by
  have hsE : src.isEmpty = false := by
    cases src with
    | nil => exact absurd rfl h1
    | cons a l => rfl
  have hb : buildAction .callback src none
      = MENU_PREFIX ++ ':' :: (src ++ ':' :: actionRepr .callback) := by
    simp [buildAction]
  rw [hb]
  simp only [parseAction]
  rw [splitCh_append_sep _ _ _ (by decide : ':' ∉ MENU_PREFIX),
    splitCh_append_sep _ _ _ h2,
    splitCh_no_sep _ _ (by decide : ':' ∉ actionRepr Action.callback)]
  simp [actionOfRepr, hsE]

/-- C3: for every recognized action kind, every non-empty owner menu id
without the `:` delimiter, and every optional non-empty delimiter-free
instance id, `parseAction` recovers from `buildAction`'s token exactly the
original triple; in particular the token minted by `LayoutBuilder.callback`
for a menu decodes with `sourceId` equal to that menu's id and a recognized
action kind. -/
theorem c3_codec_roundtrip (a : Action) (src : JStr) (t : Option JStr)
    (menuId targetId : JStr)
    (hsrc1 : src ≠ []) (hsrc2 : ':' ∉ src)
    (ht : t = none ∨ ∃ u, t = some u ∧ u ≠ [] ∧ ':' ∉ u)
    (hm1 : menuId ≠ []) (hm2 : ':' ∉ menuId)
    (hi1 : targetId ≠ []) (hi2 : ':' ∉ targetId) :
    parseAction (buildAction a src t) = some ⟨a, src, t⟩
    ∧ ∃ p, parseAction (cbAction menuId targetId) = some p
        ∧ p.sourceId = menuId ∧ p.action = .callback := by
  cases a
  constructor
  · rcases ht with rfl | ⟨u, rfl, hu1, hu2⟩
    · exact parseAction_buildAction_none src hsrc1 hsrc2
    · exact parseAction_buildAction_some src u hsrc1 hsrc2 hu1 hu2
  · exact ⟨⟨.callback, menuId, some targetId⟩,
      parseAction_buildAction_some menuId targetId hm1 hm2 hi1 hi2, rfl, rfl⟩

/-- Witness for C3 at concrete ids. -/
theorem c3_codec_roundtrip_witness :
    parseAction (buildAction .callback ['m'] (some ['t']))
      = some ⟨.callback, ['m'], some ['t']⟩
    ∧ ∃ p, parseAction (cbAction ['n'] ['q']) = some p
        ∧ p.sourceId = ['n'] ∧ p.action = .callback :=
  c3_codec_roundtrip .callback ['m'] (some ['t']) ['n'] ['q']
    (by decide) (by decide) (Or.inr ⟨['t'], rfl, by decide, by decide⟩)
    (by decide) (by decide) (by decide) (by decide)

/-- Concrete token whose fourth field is empty: `"eijdfwof:s:call:"`. -/
def emptyInstanceTok : JStr := MENU_PREFIX ++ [':', 's', ':', 'c', 'a', 'l', 'l', ':']

theorem buildAction_no_instance_ne (src : JStr) :
    MENU_PREFIX ++ ':' :: (src ++ ':' :: (actionRepr .callback ++ []))
      ≠ emptyInstanceTok := by
  intro h
  rw [List.append_nil] at h
  have hL := congrArg List.getLast? h
  rw [List.getLast?_append_cons, ← List.cons_append, List.getLast?_append_cons] at hL
  exact absurd hL (by decide)

theorem buildAction_with_instance_ne (src u : JStr) (hu : u ≠ []) :
    MENU_PREFIX ++ ':' :: (src ++ ':' :: (actionRepr .callback ++ ':' :: u))
      ≠ emptyInstanceTok := by
  intro h
  have hlen := congrArg List.length h
  simp [ MENU_PREFIX, emptyInstanceTok, actionRepr] at hlen
  have hu1 : 0 < u.length := List.length_pos.mpr hu
  have hsrc0 : src.length = 0 := by omega
  have hu2 : u.length = 1 := by omega
  obtain rfl := List.length_eq_zero.mp hsrc0
  obtain ⟨x, rfl⟩ := List.length_eq_one.mp hu2
  have h9 : (some ':' : Option Char) = some 's' := congrArg (fun l => l.get? 9) h
  exact absurd h9 (by decide)

/-- C4 counterexample: the string `"eijdfwof:s:call:"` decodes to a non-null
result, yet no invocation of `buildAction` produces it (an empty instance
id is dropped by the truthiness check), so "for every string that is not an
output of encode, decode returns null" is false. -/
theorem c4_counterexample :
    parseAction emptyInstanceTok = some ⟨.callback, ['s'], some []⟩
    ∧ ∀ (a : Action) (src : JStr) (t : Option JStr),
        buildAction a src t ≠ emptyInstanceTok := by
  refine ⟨by decide, ?_⟩
  intro a src t h
  cases a
  cases t with
  | none => exact buildAction_no_instance_ne src h
  | some u =>
    cases u with
    | nil => exact buildAction_no_instance_ne src h
    | cons x u' => exact buildAction_with_instance_ne src (x :: u') (by simp) h

theorem lookupA_setA_self {K α : Type} [DecidableEq K] (m : List (K × α)) (k : K) (v : α) :
    lookupA (setA m k v) k = some v := by
  induction m with
  | nil => simp [setA, lookupA]
  | cons p rest ih =>
    obtain ⟨k₀, v₀⟩ := p
    by_cases hk : k₀ = k
    · subst hk; simp [setA, lookupA]
    · simp [setA, lookupA, hk, ih]

theorem lookupA_setA_ne {K α : Type} [DecidableEq K] (m : List (K × α)) (k k' : K) (v : α)
    (h : ¬ k = k') :
    lookupA (setA m k v) k' = lookupA m k' := by
  induction m with
  | nil => simp [setA, lookupA, h]
  | cons p rest ih =>
    obtain ⟨k₀, v₀⟩ := p
    by_cases hk : k₀ = k
    · subst hk; simp [setA, lookupA, h]
    · by_cases hk' : k₀ = k'
      · subst hk'; simp [setA, lookupA, hk]
      · simp [setA, lookupA, hk, hk', ih]

theorem lookupA_eq_none_of_not_mem_keys {K α : Type} [DecidableEq K]
    (m : List (K × α)) (k : K) (h : k ∉ m.map Prod.fst) :
    lookupA m k = none := by
  induction m with
  | nil => rfl
  | cons p rest ih =>
    obtain ⟨k₀, v₀⟩ := p
    have h1 : ¬ k₀ = k := by
      intro e; exact h (by simp [e])
    have h2 : k ∉ rest.map Prod.fst := by
      intro e; exact h (by simp [e])
    simp [lookupA, h1, ih h2]

theorem lookupA_foldl_setA_none {κ : Type} (hs : List (Handler κ)) (a : JStr) :
    (∀ x ∈ hs, ¬ x.action = a) → ∀ acc : List (JStr × Handler κ),
      lookupA acc a = none →
      lookupA (hs.foldl (fun m x => setA m x.action x) acc) a = none := by
  induction hs with
  | nil => intro _ acc hacc; simpa using hacc
  | cons x rest ih =>
    intro h acc hacc
    simp only [List.foldl_cons]
    exact ih (fun y hy => h y (List.mem_cons_of_mem _ hy)) (setA acc x.action x)
      (by rw [lookupA_setA_ne _ _ _ _ (h x (List.mem_cons_self _ _))]; exact hacc)

theorem lookupA_handlersToMap_none {κ : Type} (hs : List (Handler κ)) (a : JStr)
    (h : ∀ x ∈ hs, ¬ x.action = a) :
    lookupA (handlersToMap hs) a = none :=
  lookupA_foldl_setA_none hs a h [] rfl

theorem lookupA_mergeFields (a b : List (String × JSVal)) (k : String)
    (hb : (b.map Prod.fst).Nodup) :
    lookupA (mergeFields a b) k = (lookupA b k).or (lookupA a k) := by
  induction b generalizing a with
  | nil => simp [mergeFields, lookupA]
  | cons p rest ih =>
    obtain ⟨k₁, v₁⟩ := p
    have hb1 : k₁ ∉ rest.map Prod.fst := (List.nodup_cons.mp (by simpa using hb)).1
    have hbrest : (rest.map Prod.fst).Nodup := (List.nodup_cons.mp (by simpa using hb)).2
    have hstep : mergeFields a ((k₁, v₁) :: rest) = mergeFields (setA a k₁ v₁) rest := rfl
    rw [hstep, ih (setA a k₁ v₁) hbrest]
    by_cases hk : k₁ = k
    · subst hk
      have hrest : lookupA rest k₁ = none := lookupA_eq_none_of_not_mem_keys rest k₁ hb1
      simp [lookupA, hrest, lookupA_setA_self]
    · simp [lookupA, hk, lookupA_setA_ne _ _ _ _ hk]

/-- C4 (amended): `parseAction` is total (never throws) and returns `none`
exactly when the namespace marker field mismatches, the action-kind field
is unrecognized, or the owner-menu-id field is empty. -/
theorem c4_decode_null_iff (s : JStr) :
    parseAction s = none ↔
      ((splitCh ':' s)[0]? ≠ some MENU_PREFIX
        ∨ actionOfRepr ((splitCh ':' s)[2]?.getD []) = none
        ∨ (splitCh ':' s)[1]?.getD [] = []) := by
  by_cases h0 : (splitCh ':' s)[0]? = some MENU_PREFIX
  · cases h2 : actionOfRepr ((splitCh ':' s)[2]?.getD []) with
    | none => simp [parseAction, h0, h2]
    | some k =>
      by_cases h1 : (splitCh ':' s)[1]?.getD [] = []
      · simp [parseAction, h0, h2, h1]
      · simp [parseAction, h0, h2, h1]
  · simp [parseAction, h0]

/-- C5: compiling a static one-button step followed by a dynamic step whose
generator adds two buttons without a row break yields the single spliced
row `[[A, X, Y]]` with the static handler in the static registry and both
generated handlers in the dynamic registry; moreover, for an arbitrary
nested step list, every handler the dynamic step produces — whether the
nested builder declared it static or dynamic — lands in the outer compile's
dynamic registry, and the outer static registry keeps only the outer static
step's handler. -/
theorem c5_dynamic_section_splice {β η : Type} (A X Y : β) (hA hX hY : η)
    (nested : List (BStep β η)) :
    build [.static [Sum.inl A] (some hA),
        .dyn [.static [Sum.inl X] (some hX), .static [Sum.inl Y] (some hY)]]
      = ⟨[[A, X, Y]], [hA], [hX, hY]⟩
    ∧ (build [.static [Sum.inl A] (some hA), .dyn nested]).staticHandlers = [hA]
    ∧ (build [.static [Sum.inl A] (some hA), .dyn nested]).dynamicHandlers
        = (build nested).staticHandlers ++ (build nested).dynamicHandlers := by
  refine ⟨?_, ?_, ?_⟩
  · simp [build, buildList, addButtons, appendToLast, splice]
  · simp [build, buildList, addButtons, appendToLast]
  · simp [build, buildList, addButtons, appendToLast]

/-- C1: when an interaction resolves to one of this menu's registered
handlers (static map first, then the per-chat dynamic map), the handler's
token decodes with owner menu id equal to the menu's id, and the
interaction's target message id differs from the session's
`activeMessageId`, the middleware answers with the configured stale-notice
text as a visible alert, invokes no handler, calls no `next`, and returns
without error. -/
theorem c1_stale_interaction {κ : Type} (cfg : MenuCfg) (st : MenuSt κ) (sess : Sess)
    (chat : Option JStr) (cbData : Option JStr) (cbMsgId : Option Nat)
    (hOut : Except String Unit) (h : Handler κ) (p : ParsedAction)
    (hres : resolveHandler st.staticMap st.dyn chat (cbData.getD []) = some h)
    (hparse : parseAction h.action = some p)
    (hsrc : p.sourceId = cfg.id)
    (hstale : cbMsgId ≠ sess.activeMessageId) :
    middleware cfg st sess chat cbData cbMsgId hOut
      = (.ok (), [.answer (some (resolvedStaleText cfg)) true]) := by
  simp [middleware, hres, hparse, hsrc, hstale]

/-- Witness for C1 at a concrete menu, handler, and message-id mismatch. -/
theorem c1_stale_interaction_witness :
    middleware (⟨['m'], none⟩ : MenuCfg)
        (⟨[(cbAction ['m'] ['t'], ⟨cbAction ['m'] ['t'], some 0⟩)], []⟩ : MenuSt Nat)
        ⟨none, .undef, .undef⟩ none (some (cbAction ['m'] ['t'])) (some 1) (.ok ())
      = (.ok (), [.answer (some (resolvedStaleText ⟨['m'], none⟩)) true]) :=
  c1_stale_interaction _ _ _ _ _ _ _ ⟨cbAction ['m'] ['t'], some 0⟩
    ⟨.callback, ['m'], some ['t']⟩ (by decide) (by decide) rfl (by decide)

/-- C8: when the matched, fresh interaction's callback (or its timeout
race) rejects with an error, the middleware answers the interaction with a
visible alert carrying the error's message and re-throws the same error. -/
theorem c8_handler_error_rethrown {κ : Type} (cfg : MenuCfg) (st : MenuSt κ)
    (sess : Sess) (chat : Option JStr) (cbData : Option JStr) (cbMsgId : Option Nat)
    (e : String) (h : Handler κ) (p : ParsedAction) (f : κ)
    (hres : resolveHandler st.staticMap st.dyn chat (cbData.getD []) = some h)
    (hparse : parseAction h.action = some p)
    (hsrc : p.sourceId = cfg.id)
    (hfresh : cbMsgId = sess.activeMessageId)
    (hfn : h.callbackFn = some f) :
    middleware cfg st sess chat cbData cbMsgId (.error e)
      = (.error e, [.invokeHandler h.action, .answer (some e) true]) := by
  simp [middleware, hres, hparse, hsrc, hfresh, hfn]

/-- Witness for C8 at a concrete menu, handler, and failing callback. -/
theorem c8_handler_error_rethrown_witness :
    middleware (⟨['m'], none⟩ : MenuCfg)
        (⟨[(cbAction ['m'] ['t'], ⟨cbAction ['m'] ['t'], some 0⟩)], []⟩ : MenuSt Nat)
        ⟨some 1, .undef, .undef⟩ none (some (cbAction ['m'] ['t'])) (some 1)
        (.error "boom")
      = (.error "boom", [.invokeHandler (cbAction ['m'] ['t']),
          .answer (some "boom") true]) :=
  c8_handler_error_rethrown _ _ _ _ _ _ "boom" ⟨cbAction ['m'] ['t'], some 0⟩
    ⟨.callback, ['m'], some ['t']⟩ 0 (by decide) (by decide) rfl rfl rfl

/-- C10: with no chat on the context, `buildLayout` stores the compiled
dynamic handler map under the empty-string chat key, the middleware's
handler resolution for a chat-less update reads the dynamic registry under
that same empty key, and a second chat-less render overwrites the first's
entry — all chat-less contexts share one dynamic registry. -/
theorem c10_chatless_shared_registry {κ : Type} (st : MenuSt κ)
    (loader : JSVal → LoaderOutcome) (steps : List (BStep Button (Handler κ)))
    (args : JSVal) (sess : Sess) (text : String) (data : JSVal) (pm : Option String)
    (cbq : JStr) (dyn0 : List (JStr × List (JStr × Handler κ)))
    (m1 m2 : List (JStr × Handler κ))
    (hl : loader args = .ok (text, data, pm))
    (hmiss : lookupA st.staticMap cbq = none) :
    buildLayout st none loader steps args sess
      = (.ok (⟨text, (build steps).keyboard, pm⟩,
          { sess with activeMenuLoaderArgs := args, activeMenuLoaderData := data },
          { st with
            dyn := setA st.dyn [] (handlersToMap (build steps).dynamicHandlers) }),
          [.invokeLoader args])
    ∧ resolveHandler st.staticMap st.dyn none cbq
        = (lookupA st.dyn []).bind (fun m => lookupA m cbq)
    ∧ lookupA (setA (setA dyn0 [] m1) [] m2) [] = some m2 := by
  refine ⟨?_, ?_, ?_⟩
  · simp [buildLayout, hl]
  · simp [resolveHandler, hmiss]
  · exact lookupA_setA_self _ _ _

/-- Witness for C10 at a concrete loader and maps. -/
theorem c10_chatless_shared_registry_witness :
    buildLayout (⟨[], []⟩ : MenuSt Nat) none (fun _ => .ok ("t", .undef, none)) []
        .undef ⟨none, .undef, .undef⟩
      = (.ok (⟨"t", (build ([] : List (BStep Button (Handler Nat)))).keyboard, none⟩,
          ⟨none, .undef, .undef⟩,
          ⟨[], setA [] []
            (handlersToMap (build ([] : List (BStep Button (Handler Nat)))).dynamicHandlers)⟩),
          [.invokeLoader .undef])
    ∧ resolveHandler ([] : List (JStr × Handler Nat)) [] none ['x']
        = (lookupA ([] : List (JStr × List (JStr × Handler Nat))) []).bind
            (fun m => lookupA m ['x'])
    ∧ lookupA (setA (setA ([] : List (JStr × List (JStr × Handler Nat))) [] [])
        [] [(['a'], ⟨['a'], none⟩)]) [] = some [(['a'], ⟨['a'], none⟩)] :=
  c10_chatless_shared_registry (⟨[], []⟩ : MenuSt Nat)
    (fun _ => .ok ("t", .undef, none)) [] .undef ⟨none, .undef, .undef⟩ "t" .undef
    none ['x'] [] [] [(['a'], ⟨['a'], none⟩)] rfl rfl

theorem render_activeMessageId {κ : Type} (st : MenuSt κ) (chat : Option JStr)
    (loader : JSVal → LoaderOutcome) (steps : List (BStep Button (Handler κ)))
    (args : JSVal) (sess : Sess) (editOut : Except String Unit) :
    (render st chat loader steps args sess editOut).sess.activeMessageId
      = sess.activeMessageId := by
  unfold render buildLayout
  cases loader args with
  | error e => rfl
  | ok v =>
    obtain ⟨t, d, pm⟩ := v
    rfl

theorem send_activeMessageId_success {κ : Type} (st : MenuSt κ) (chat : Option JStr)
    (loader : JSVal → LoaderOutcome) (steps : List (BStep Button (Handler κ)))
    (args : JSVal) (sess : Sess) (errReplyOut : Except String Unit) (mid : Nat)
    (t : String) (d : JSVal) (pm : Option String)
    (hl : loader args = .ok (t, d, pm)) :
    (send st chat loader steps args sess (.ok mid) errReplyOut).sess.activeMessageId
      = some mid := by
  unfold send buildLayout
  rw [hl]

theorem render_staticMap {κ : Type} (st : MenuSt κ) (chat : Option JStr)
    (loader : JSVal → LoaderOutcome) (steps : List (BStep Button (Handler κ)))
    (args : JSVal) (sess : Sess) (editOut : Except String Unit) :
    (render st chat loader steps args sess editOut).st.staticMap = st.staticMap := by
  unfold render buildLayout
  cases loader args with
  | error e => rfl
  | ok v =>
    obtain ⟨t, d, pm⟩ := v
    rfl

theorem send_staticMap {κ : Type} (st : MenuSt κ) (chat : Option JStr)
    (loader : JSVal → LoaderOutcome) (steps : List (BStep Button (Handler κ)))
    (args : JSVal) (sess : Sess) (replyOut : Except String Nat)
    (errReplyOut : Except String Unit) :
    (send st chat loader steps args sess replyOut errReplyOut).st.staticMap
      = st.staticMap := by
  unfold send buildLayout
  cases loader args with
  | error e => rfl
  | ok v =>
    obtain ⟨t, d, pm⟩ := v
    cases replyOut <;> rfl

theorem applyOp_staticMap {κ : Type} (acc : Sess × MenuSt κ) (op : MenuOp κ) :
    (applyOp acc op).2.staticMap = acc.2.staticMap := by
  cases op with
  | sendOp chat loader steps args replyOut errReplyOut =>
    exact send_staticMap _ _ _ _ _ _ _ _
  | renderOp chat loader steps args editOut =>
    exact render_staticMap _ _ _ _ _ _ _

/-- C2: `render` (the navigate/edit path, for any menu — including
cross-menu navigation from a callback handler, which delegates to the
target menu's `render`) never writes `activeMessageId`; every successful
`send` records the new message id as `activeMessageId`, and a second
successful `send` in a row overwrites the first's id. -/
theorem c2_send_sets_render_keeps (κ : Type) :
    (∀ (st : MenuSt κ) (chat : Option JStr) (loader : JSVal → LoaderOutcome)
        (steps : List (BStep Button (Handler κ))) (args : JSVal) (sess : Sess)
        (editOut : Except String Unit),
      (render st chat loader steps args sess editOut).sess.activeMessageId
        = sess.activeMessageId)
    ∧ (∀ (st : MenuSt κ) (chat : Option JStr) (loader : JSVal → LoaderOutcome)
        (steps : List (BStep Button (Handler κ))) (args : JSVal) (sess : Sess)
        (errReplyOut : Except String Unit) (mid : Nat) (t : String) (d : JSVal)
        (pm : Option String), loader args = .ok (t, d, pm) →
      (send st chat loader steps args sess (.ok mid) errReplyOut).sess.activeMessageId
        = some mid)
    ∧ (∀ (st : MenuSt κ) (chat : Option JStr) (loader1 loader2 : JSVal → LoaderOutcome)
        (steps1 steps2 : List (BStep Button (Handler κ))) (args1 args2 : JSVal)
        (sess : Sess) (errR1 errR2 : Except String Unit) (mid1 mid2 : Nat)
        (t1 t2 : String) (d1 d2 : JSVal) (pm1 pm2 : Option String),
      loader1 args1 = .ok (t1, d1, pm1) → loader2 args2 = .ok (t2, d2, pm2) →
      (send (send st chat loader1 steps1 args1 sess (.ok mid1) errR1).st chat loader2
          steps2 args2 (send st chat loader1 steps1 args1 sess (.ok mid1) errR1).sess
          (.ok mid2) errR2).sess.activeMessageId = some mid2) :=
  ⟨fun st chat loader steps args sess editOut =>
      render_activeMessageId st chat loader steps args sess editOut,
    fun st chat loader steps args sess errReplyOut mid t d pm hl =>
      send_activeMessageId_success st chat loader steps args sess errReplyOut mid
        t d pm hl,
    fun _ chat _ loader2 _ steps2 _ args2 _ _ errR2 _
        mid2 _ t2 _ d2 _ pm2 _ hl2 =>
      send_activeMessageId_success _ chat loader2 steps2 args2 _ errR2 mid2
        t2 d2 pm2 hl2⟩

/-- Witness for C2 with two concrete consecutive sends. -/
theorem c2_send_sets_render_keeps_witness :
    ((render (⟨[], []⟩ : MenuSt Nat) none (fun _ => .ok ("t", .undef, none)) []
        .undef ⟨some 7, .undef, .undef⟩ (.ok ())).sess.activeMessageId = some 7)
    ∧ ((send (send (⟨[], []⟩ : MenuSt Nat) none (fun _ => .ok ("t", .undef, none))
        [] .undef ⟨some 7, .undef, .undef⟩ (.ok 8) (.ok ())).st none
        (fun _ => .ok ("t", .undef, none)) [] .undef
        (send (⟨[], []⟩ : MenuSt Nat) none (fun _ => .ok ("t", .undef, none)) []
          .undef ⟨some 7, .undef, .undef⟩ (.ok 8) (.ok ())).sess (.ok 9)
        (.ok ())).sess.activeMessageId = some 9) :=
  ⟨(c2_send_sets_render_keeps Nat).1 ⟨[], []⟩ none (fun _ => .ok ("t", .undef, none))
      [] .undef ⟨some 7, .undef, .undef⟩ (.ok ()),
    (c2_send_sets_render_keeps Nat).2.2 ⟨[], []⟩ none
      (fun _ => .ok ("t", .undef, none)) (fun _ => .ok ("t", .undef, none)) [] []
      .undef .undef ⟨some 7, .undef, .undef⟩ (.ok ()) (.ok ()) 8 9 "t" "t" .undef
      .undef none none rfl rfl⟩

/-- C6: a successful render replaces the invoking chat's dynamic handler
map wholesale with exactly the dynamic handlers of that render's compile
(whatever was stored before), tokens not re-minted by that compile resolve
to nothing in the new map, and no sequence of send/render operations ever
changes the static handler map built at construction. -/
theorem c6_registry_replacement {κ : Type} (st : MenuSt κ) (chat : Option JStr)
    (loader : JSVal → LoaderOutcome) (steps : List (BStep Button (Handler κ)))
    (args : JSVal) (sess : Sess) (text : String) (data : JSVal) (pm : Option String)
    (hl : loader args = .ok (text, data, pm)) :
    (buildLayout st chat loader steps args sess
      = (.ok (⟨text, (build steps).keyboard, pm⟩,
          { sess with activeMenuLoaderArgs := args, activeMenuLoaderData := data },
          { st with
            dyn := setA st.dyn (chat.getD [])
              (handlersToMap (build steps).dynamicHandlers) }),
          [.invokeLoader args]))
    ∧ lookupA (setA st.dyn (chat.getD [])
          (handlersToMap (build steps).dynamicHandlers)) (chat.getD [])
        = some (handlersToMap (build steps).dynamicHandlers)
    ∧ (∀ a : JStr, (∀ x ∈ (build steps).dynamicHandlers, ¬ x.action = a) →
        lookupA (handlersToMap (build steps).dynamicHandlers) a = none)
    ∧ (∀ (ops : List (MenuOp κ)) (acc : Sess × MenuSt κ),
        ((ops.foldl applyOp acc).2).staticMap = acc.2.staticMap) := by
  refine ⟨by simp [buildLayout, hl], lookupA_setA_self _ _ _,
    fun a ha => lookupA_handlersToMap_none _ a ha, ?_⟩
  intro ops
  induction ops with
  | nil => intro acc; rfl
  | cons op rest ih =>
    intro acc
    simp only [List.foldl_cons]
    rw [ih (applyOp acc op)]
    exact applyOp_staticMap acc op

/-- Witness for C6 at a concrete loader and an operation sequence. -/
theorem c6_registry_replacement_witness :
    (buildLayout (⟨[(['z'], ⟨['z'], none⟩)], []⟩ : MenuSt Nat) none
        (fun _ => .ok ("t", .undef, none)) [] .undef ⟨none, .undef, .undef⟩
      = (.ok (⟨"t", (build ([] : List (BStep Button (Handler Nat)))).keyboard, none⟩,
          ⟨none, .undef, .undef⟩,
          ⟨[(['z'], ⟨['z'], none⟩)],
            setA [] []
              (handlersToMap
                (build ([] : List (BStep Button (Handler Nat)))).dynamicHandlers)⟩),
          [.invokeLoader .undef]))
    ∧ lookupA (setA ([] : List (JStr × List (JStr × Handler Nat))) []
          (handlersToMap
            (build ([] : List (BStep Button (Handler Nat)))).dynamicHandlers)) []
        = some (handlersToMap
            (build ([] : List (BStep Button (Handler Nat)))).dynamicHandlers)
    ∧ (∀ a : JStr,
        (∀ x ∈ (build ([] : List (BStep Button (Handler Nat)))).dynamicHandlers,
          ¬ x.action = a) →
        lookupA (handlersToMap
          (build ([] : List (BStep Button (Handler Nat)))).dynamicHandlers) a = none)
    ∧ (∀ (ops : List (MenuOp Nat)) (acc : Sess × MenuSt Nat),
        ((ops.foldl applyOp acc).2).staticMap = acc.2.staticMap) :=
  c6_registry_replacement (⟨[(['z'], ⟨['z'], none⟩)], []⟩ : MenuSt Nat) none
    (fun _ => .ok ("t", .undef, none)) [] .undef ⟨none, .undef, .undef⟩ "t" .undef
    none rfl

/-- C7 counterexample: `render` — the navigate path — has no `try`/`catch`;
with a failing `editMessageText` the error escapes to the caller and the
trace contains no reply carrying the error text, refuting "both send and
navigate catch every error arising during the render and surface it as
reply text instead of propagating". -/
theorem c7_counterexample :
    (render (⟨[], []⟩ : MenuSt Nat) none (fun _ => .ok ("hi", .undef, none)) []
        .undef ⟨none, .undef, .undef⟩ (.error "boom")).outcome = .error "boom"
    ∧ (render (⟨[], []⟩ : MenuSt Nat) none (fun _ => .ok ("hi", .undef, none)) []
        .undef ⟨none, .undef, .undef⟩ (.error "boom")).trace
      = [.invokeLoader .undef, .editMessage "hi"] :=
  ⟨rfl, rfl⟩

/-- C7 (amended): `send` catches every error arising during its render —
including a loader failure or timeout and a rejected reply — and surfaces
the error's message to the user as reply text instead of propagating it
(provided the fallback reply itself succeeds), while `render` (the
navigate path) catches nothing: a build error or an edit rejection
escapes to its caller. -/
theorem c7_send_catches_render_propagates {κ : Type} (st : MenuSt κ)
    (chat : Option JStr) (loader : JSVal → LoaderOutcome)
    (steps : List (BStep Button (Handler κ))) (args : JSVal) (sess : Sess)
    (e e2 : String) (t : String) (d : JSVal) (pm : Option String)
    (replyOut : Except String Nat) (editOut : Except String Unit) :
    (loader args = .error e →
      (send st chat loader steps args sess replyOut (.ok ())).outcome = .ok ()
      ∧ (send st chat loader steps args sess replyOut (.ok ())).trace
          = [.invokeLoader args, .reply e])
    ∧ (loader args = .ok (t, d, pm) →
      (send st chat loader steps args sess (.error e2) (.ok ())).outcome = .ok ()
      ∧ (send st chat loader steps args sess (.error e2) (.ok ())).trace
          = [.invokeLoader args, .reply t, .reply e2])
    ∧ (loader args = .error e →
      (render st chat loader steps args sess editOut).outcome = .error e)
    ∧ (loader args = .ok (t, d, pm) →
      (render st chat loader steps args sess editOut).outcome = editOut) := by
  refine ⟨fun hl => ?_, fun hl => ?_, fun hl => ?_, fun hl => ?_⟩
  · exact ⟨by unfold send buildLayout; rw [hl], by unfold send buildLayout; rw [hl]; rfl⟩
  · exact ⟨by unfold send buildLayout; rw [hl], by unfold send buildLayout; rw [hl]; rfl⟩
  · unfold render buildLayout; rw [hl]
  · unfold render buildLayout; rw [hl]

/-- Witness for C7's amended statement at concrete loaders. -/
theorem c7_send_catches_render_propagates_witness :
    ((send (⟨[], []⟩ : MenuSt Nat) none (fun _ => .error "boom") [] .undef
        ⟨none, .undef, .undef⟩ (.ok 3) (.ok ())).outcome = .ok ()
      ∧ (send (⟨[], []⟩ : MenuSt Nat) none (fun _ => .error "boom") [] .undef
        ⟨none, .undef, .undef⟩ (.ok 3) (.ok ())).trace
          = [.invokeLoader .undef, .reply "boom"])
    ∧ ((send (⟨[], []⟩ : MenuSt Nat) none (fun _ => .ok ("hi", .undef, none)) []
        .undef ⟨none, .undef, .undef⟩ (.error "no net") (.ok ())).outcome = .ok ()
      ∧ (send (⟨[], []⟩ : MenuSt Nat) none (fun _ => .ok ("hi", .undef, none)) []
        .undef ⟨none, .undef, .undef⟩ (.error "no net") (.ok ())).trace
          = [.invokeLoader .undef, .reply "hi", .reply "no net"]) :=
  ⟨(c7_send_catches_render_propagates (⟨[], []⟩ : MenuSt Nat) none
      (fun _ => .error "boom") [] .undef ⟨none, .undef, .undef⟩ "boom" "x" "t"
      .undef none (.ok 3) (.ok ())).1 rfl,
    (c7_send_catches_render_propagates (⟨[], []⟩ : MenuSt Nat) none
      (fun _ => .ok ("hi", .undef, none)) [] .undef ⟨none, .undef, .undef⟩ "e"
      "no net" "hi" .undef none (.ok 3) (.ok ())).2.1 rfl⟩

/-- C9: `refresh(args)` re-invokes the loader with the previous persisted
loader arguments shallow-merged under the override when the previous
arguments were a non-null object (field lookup: override field wins,
otherwise the previous field), replaces them entirely by the override when
they were not object-shaped and an override is given, and re-renders
through the `render` edit path (so `activeMessageId` is untouched and an
`editMessageText` is issued on success). -/
theorem c9_refresh_shallow_merge {κ : Type} (st : MenuSt κ) (chat : Option JStr)
    (loader : JSVal → LoaderOutcome) (steps : List (BStep Button (Handler κ)))
    (sess : Sess) (override : JSVal) (editOut : Except String Unit)
    (fs : List (String × JSVal)) (t : String) (d : JSVal) (pm : Option String)
    (hb : ((jsSpread (jsNullish override (.obj []))).map Prod.fst).Nodup) :
    ((refreshAction st chat loader steps sess override editOut).trace.head?
        = some (.invokeLoader (refreshArgs sess.activeMenuLoaderArgs override)))
    ∧ (refreshAction st chat loader steps sess override
        editOut).sess.activeMessageId = sess.activeMessageId
    ∧ (loader (refreshArgs sess.activeMenuLoaderArgs override) = .ok (t, d, pm) →
      (refreshAction st chat loader steps sess override editOut).trace
        = [.invokeLoader (refreshArgs sess.activeMenuLoaderArgs override),
            .editMessage t])
    ∧ (sess.activeMenuLoaderArgs = .obj fs →
      refreshArgs sess.activeMenuLoaderArgs override
        = .obj (mergeFields fs (jsSpread (jsNullish override (.obj []))))
      ∧ ∀ k, lookupA (mergeFields fs (jsSpread (jsNullish override (.obj [])))) k
          = (lookupA (jsSpread (jsNullish override (.obj []))) k).or (lookupA fs k))
    ∧ ((∀ gs, sess.activeMenuLoaderArgs ≠ .obj gs) →
      refreshArgs sess.activeMenuLoaderArgs override
        = jsNullish override sess.activeMenuLoaderArgs)
    ∧ (override ≠ .undef → override ≠ .null →
      jsNullish override sess.activeMenuLoaderArgs = override)
    ∧ refreshArgs (.obj [("resetCount", .bool false), ("other", .str "x")])
        (.obj [("resetCount", .bool true)])
        = .obj [("resetCount", .bool true), ("other", .str "x")] := by
  refine ⟨?_, ?_, fun hl => ?_, fun hobj => ⟨?_, fun k => ?_⟩, fun hno => ?_,
    fun h1 h2 => ?_, ?_⟩
  · unfold refreshAction render buildLayout
    cases loader (refreshArgs sess.activeMenuLoaderArgs override) with
    | error e => rfl
    | ok v =>
      obtain ⟨t', d', pm'⟩ := v
      rfl
  · exact render_activeMessageId _ _ _ _ _ _ _
  · unfold refreshAction render buildLayout
    rw [hl]; rfl
  · rw [hobj]; rfl
  · exact lookupA_mergeFields fs (jsSpread (jsNullish override (.obj []))) k hb
  · cases h : sess.activeMenuLoaderArgs with
    | obj gs => exact absurd h (by simpa using hno gs)
    | undef => rfl
    | null => rfl
    | bool b => rfl
    | str s => rfl
    | num n => rfl
  · cases override with
    | undef => exact absurd rfl h1
    | null => exact absurd rfl h2
    | bool b => rfl
    | str s => rfl
    | num n => rfl
    | obj gs => rfl
  · rfl

/-- Witness for C9 at the spec's concrete merge example. -/
theorem c9_refresh_shallow_merge_witness :
    ((refreshAction (⟨[], []⟩ : MenuSt Nat) none (fun _ => .ok ("t", .undef, none))
        [] ⟨some 4, .obj [("resetCount", .bool false), ("other", .str "x")], .undef⟩
        (.obj [("resetCount", .bool true)]) (.ok ())).trace.head?
      = some (.invokeLoader (refreshArgs
          (.obj [("resetCount", .bool false), ("other", .str "x")])
          (.obj [("resetCount", .bool true)]))))
    ∧ (refreshAction (⟨[], []⟩ : MenuSt Nat) none (fun _ => .ok ("t", .undef, none))
        [] ⟨some 4, .obj [("resetCount", .bool false), ("other", .str "x")], .undef⟩
        (.obj [("resetCount", .bool true)]) (.ok ())).sess.activeMessageId = some 4
    ∧ refreshArgs (.obj [("resetCount", .bool false), ("other", .str "x")])
        (.obj [("resetCount", .bool true)])
        = .obj [("resetCount", .bool true), ("other", .str "x")] :=
  ⟨(c9_refresh_shallow_merge (⟨[], []⟩ : MenuSt Nat) none
      (fun _ => .ok ("t", .undef, none)) []
      ⟨some 4, .obj [("resetCount", .bool false), ("other", .str "x")], .undef⟩
      (.obj [("resetCount", .bool true)]) (.ok ()) [] "t" .undef none
      (by decide)).1,
    (c9_refresh_shallow_merge (⟨[], []⟩ : MenuSt Nat) none
      (fun _ => .ok ("t", .undef, none)) []
      ⟨some 4, .obj [("resetCount", .bool false), ("other", .str "x")], .undef⟩
      (.obj [("resetCount", .bool true)]) (.ok ()) [] "t" .undef none
      (by decide)).2.1,
    (c9_refresh_shallow_merge (⟨[], []⟩ : MenuSt Nat) none
      (fun _ => .ok ("t", .undef, none)) []
      ⟨some 4, .obj [("resetCount", .bool false), ("other", .str "x")], .undef⟩
      (.obj [("resetCount", .bool true)]) (.ok ()) [] "t" .undef none
      (by decide)).2.2.2.2.2.2⟩

end BGMenu
